import Mathlib

/-!
Shallow embedding of src/components/sections/hero/PhysiotherapyHero.tsx.

The component merges caller-supplied override props with a fixed default
configuration and renders a hero section.  We embed the default content,
the size lookup table, the props record, the resolution (merge) step and
the observable shape of the rendered output, and prove the spec claims
about them.

The default primary CTA URL reads businessInfo.bookingUrl from
"@/lib/data/business-info", a module that is not part of this fragment;
we therefore keep the embedding parametric in that string.
-/

namespace Hero

/-- The restricted size type: "large" | "medium" | "small". -/
inductive Size where
  | large
  | medium
  | small
deriving DecidableEq, Repr

/-- Module constant `size` (the default hero size). Source line 12:
`const size: "large" | "medium" | "small" = "large"`. -/
def defaultSize : Size := Size.large

/-- `sizeClasses` lookup table (source lines 32-36). -/
def sizeClasses : Size → String
  | Size.large => "min-h-[600px] md:min-h-[700px] lg:min-h-[800px]"
  | Size.medium => "min-h-[500px] md:min-h-[600px]"
  | Size.small => "min-h-[400px] md:min-h-[500px]"

/-- JavaScript `a || b` on strings: the empty string is falsy. -/
def strOr (a b : String) : String :=
  if a = "" then b else a

/-- The shape of the `heroContent` default configuration object
(source lines 15-26). -/
structure HeroContent where
  title : String
  description : String
  ctaText : String
  ctaUrl : String
  secondaryCtaText : String
  secondaryCtaUrl : String
  heroImage : String
  heroImageAlt : String
  logoImage : String
deriving DecidableEq, Repr

/-- The `heroContent` constant (source lines 15-26), parametric in
`businessInfo.bookingUrl` since that module is outside this fragment.
`ctaUrl` is `businessInfo.bookingUrl || "/contact"`. -/
def heroContent (bookingUrl : String) : HeroContent where
  title := "Move Better, Feel Better, Live Better"
  description := "Expert physiotherapy care tailored to your recovery and performance goals. Our evidence-based treatments help you return to the activities you love."
  ctaText := "Book Your Assessment"
  ctaUrl := strOr bookingUrl "/contact"
  secondaryCtaText := "Learn More"
  secondaryCtaUrl := "/about"
  heroImage := "https://images.unsplash.com/photo-1576091160399-112ba8d25d1d?q=80&w=2070"
  heroImageAlt := "Physiotherapist helping patient with rehabilitation exercises"
  logoImage := "/uploads/Pro-Active-Therapy.gif"

/-- The `PhysiotherapyHeroProps` interface (source lines 42-63): every
field optional; `none` models an absent (undefined) field.  Note the
interface has a `className` field and no `logoImage` field. -/
structure PhysiotherapyHeroProps where
  title : Option String := none
  description : Option String := none
  heroImage : Option String := none
  heroImageAlt : Option String := none
  ctaText : Option String := none
  ctaUrl : Option String := none
  secondaryCtaText : Option String := none
  secondaryCtaUrl : Option String := none
  size : Option Size := none
  className : Option String := none
deriving DecidableEq, Repr

/-- The field names of the `PhysiotherapyHeroProps` interface
(source lines 42-63), in source order. -/
def propsFieldNames : List String :=
  ["title", "description", "heroImage", "heroImageAlt", "ctaText",
   "ctaUrl", "secondaryCtaText", "secondaryCtaUrl", "size", "className"]

/-- The field names of the `heroContent` object (source lines 15-26)
together with the module-level `size` constant: the default
configuration fields of the spec data model. -/
def defaultConfigFieldNames : List String :=
  ["title", "description", "ctaText", "ctaUrl", "secondaryCtaText",
   "secondaryCtaUrl", "heroImage", "heroImageAlt", "logoImage", "size"]

/-- The resolved display values computed at the top of the component
body (source lines 91-99): each is `props.x ?? heroContent.x`, and
`displaySize` is `props.size ?? size`. -/
structure EffectiveHero where
  displayTitle : String
  displayDescription : String
  displayImage : String
  displayImageAlt : String
  displayCtaText : String
  displayCtaUrl : String
  displaySecondaryCtaText : String
  displaySecondaryCtaUrl : String
  displaySize : Size
deriving DecidableEq, Repr

/-- The resolution step (source lines 91-99).  JavaScript `??` falls
back only on null/undefined, i.e. only when the option is `none`. -/
def resolve (bookingUrl : String) (props : PhysiotherapyHeroProps) : EffectiveHero where
  displayTitle := props.title.getD (heroContent bookingUrl).title
  displayDescription := props.description.getD (heroContent bookingUrl).description
  displayImage := props.heroImage.getD (heroContent bookingUrl).heroImage
  displayImageAlt := props.heroImageAlt.getD (heroContent bookingUrl).heroImageAlt
  displayCtaText := props.ctaText.getD (heroContent bookingUrl).ctaText
  displayCtaUrl := props.ctaUrl.getD (heroContent bookingUrl).ctaUrl
  displaySecondaryCtaText := props.secondaryCtaText.getD (heroContent bookingUrl).secondaryCtaText
  displaySecondaryCtaUrl := props.secondaryCtaUrl.getD (heroContent bookingUrl).secondaryCtaUrl
  displaySize := props.size.getD defaultSize

/-- The observable content of the rendered markup (source lines
101-183): heading text, description paragraph, logo source, the
height-class picked from `sizeClasses`, the two conditional CTA links
(text and href, present only when the JSX guard
`text && url` holds, i.e. both strings non-empty), and the hero
image source and alt text. -/
structure RenderedHero where
  heading : String
  paragraph : String
  logoSrc : String
  heightClass : String
  primaryCta : Option (String × String)
  secondaryCta : Option (String × String)
  imageSrc : String
  imageAlt : String
deriving DecidableEq, Repr

/-- The render step of `PhysiotherapyHero` (source lines 89-183): the
logo always uses `heroContent.logoImage`; each CTA link is emitted
exactly when its resolved text and URL are both non-empty. -/
def render (bookingUrl : String) (props : PhysiotherapyHeroProps) : RenderedHero :=
  let e := resolve bookingUrl props
  { heading := e.displayTitle
    paragraph := e.displayDescription
    logoSrc := (heroContent bookingUrl).logoImage
    heightClass := sizeClasses e.displaySize
    primaryCta :=
      if e.displayCtaText = "" ∨ e.displayCtaUrl = "" then none
      else some (e.displayCtaText, e.displayCtaUrl)
    secondaryCta :=
      if e.displaySecondaryCtaText = "" ∨ e.displaySecondaryCtaUrl = "" then none
      else some (e.displaySecondaryCtaText, e.displaySecondaryCtaUrl)
    imageSrc := e.displayImage
    imageAlt := e.displayImageAlt }

end Hero

namespace Hero

/-- Helper: the default primary CTA URL is never empty, whatever the
booking URL from the business-info module is. -/
theorem heroContent_ctaUrl_ne_empty (b : String) : (heroContent b).ctaUrl ≠ "" := by
  simp only [heroContent, strOr]
  split
  · simp
  · assumption

/-- Helper: the default CTA texts and the secondary CTA URL are non-empty. -/
theorem heroContent_cta_fields_ne_empty (b : String) :
    (heroContent b).ctaText ≠ "" ∧ (heroContent b).secondaryCtaText ≠ "" ∧
      (heroContent b).secondaryCtaUrl ≠ "" := by
  simp [heroContent]

end Hero

namespace Hero

/-- C1, counterexample: overriding the title with the empty string does
NOT fall back to the default — the resolved title is the empty string,
which differs from the default title.  The source uses the nullish
coalescing operator, which only falls back on an absent field. -/
theorem resolve_empty_override_counterexample :
    (resolve "" { title := some "" }).displayTitle ≠ (heroContent "").title := by
  decide

/-- C1 (amended): each resolved display field equals the override value
whenever the override field is provided — including a provided empty
string — and equals the default configuration value exactly when the
field is absent. -/
theorem resolve_override_or_default (b : String) (p : PhysiotherapyHeroProps) :
    (p.title = none → (resolve b p).displayTitle = (heroContent b).title) ∧
    (∀ s, p.title = some s → (resolve b p).displayTitle = s) ∧
    (p.description = none → (resolve b p).displayDescription = (heroContent b).description) ∧
    (∀ s, p.description = some s → (resolve b p).displayDescription = s) ∧
    (p.heroImage = none → (resolve b p).displayImage = (heroContent b).heroImage) ∧
    (∀ s, p.heroImage = some s → (resolve b p).displayImage = s) ∧
    (p.heroImageAlt = none → (resolve b p).displayImageAlt = (heroContent b).heroImageAlt) ∧
    (∀ s, p.heroImageAlt = some s → (resolve b p).displayImageAlt = s) ∧
    (p.ctaText = none → (resolve b p).displayCtaText = (heroContent b).ctaText) ∧
    (∀ s, p.ctaText = some s → (resolve b p).displayCtaText = s) ∧
    (p.ctaUrl = none → (resolve b p).displayCtaUrl = (heroContent b).ctaUrl) ∧
    (∀ s, p.ctaUrl = some s → (resolve b p).displayCtaUrl = s) ∧
    (p.secondaryCtaText = none →
      (resolve b p).displaySecondaryCtaText = (heroContent b).secondaryCtaText) ∧
    (∀ s, p.secondaryCtaText = some s → (resolve b p).displaySecondaryCtaText = s) ∧
    (p.secondaryCtaUrl = none →
      (resolve b p).displaySecondaryCtaUrl = (heroContent b).secondaryCtaUrl) ∧
    (∀ s, p.secondaryCtaUrl = some s → (resolve b p).displaySecondaryCtaUrl = s) ∧
    (p.size = none → (resolve b p).displaySize = defaultSize) ∧
    (∀ s, p.size = some s → (resolve b p).displaySize = s) := by
  refine ⟨?_, ?_, ?_, ?_, ?_, ?_, ?_, ?_, ?_, ?_, ?_, ?_, ?_, ?_, ?_, ?_, ?_, ?_⟩ <;>
    intros <;> simp_all [resolve]

/-- C1 witness: at a concrete input, a provided override is used and an
absent field falls back to the default. -/
theorem resolve_override_or_default_witness :
    (resolve "book" { title := some "T" }).displayTitle = "T" ∧
      (resolve "book" { title := some "T" }).displayDescription =
        (heroContent "book").description :=
  ⟨(resolve_override_or_default "book" { title := some "T" }).2.1 "T" rfl,
   (resolve_override_or_default "book" { title := some "T" }).2.2.1 rfl⟩

end Hero

namespace Hero

/-- C2: the primary CTA link is present in the rendered output iff the
resolved ctaText and ctaUrl are both non-empty, and independently the
secondary CTA link is present iff the resolved secondaryCtaText and
secondaryCtaUrl are both non-empty; a failing pair omits that button
entirely. -/
theorem render_cta_presence (b : String) (p : PhysiotherapyHeroProps) :
    ((render b p).primaryCta.isSome ↔
      (resolve b p).displayCtaText ≠ "" ∧ (resolve b p).displayCtaUrl ≠ "") ∧
    ((render b p).secondaryCta.isSome ↔
      (resolve b p).displaySecondaryCtaText ≠ "" ∧
        (resolve b p).displaySecondaryCtaUrl ≠ "") ∧
    (¬((resolve b p).displayCtaText ≠ "" ∧ (resolve b p).displayCtaUrl ≠ "") →
      (render b p).primaryCta = none) ∧
    (¬((resolve b p).displaySecondaryCtaText ≠ "" ∧
        (resolve b p).displaySecondaryCtaUrl ≠ "") →
      (render b p).secondaryCta = none) := by
  refine ⟨?_, ?_, ?_, ?_⟩ <;> simp only [render] <;> split <;> simp_all <;> tauto

/-- C2 witness: with an empty ctaUrl override the primary CTA is
omitted, while the secondary CTA (whose resolved pair is non-empty) is
present. -/
theorem render_cta_presence_witness :
    (render "" { ctaUrl := some "" }).primaryCta = none ∧
      (render "" { ctaUrl := some "" }).secondaryCta.isSome :=
  ⟨(render_cta_presence "" { ctaUrl := some "" }).2.2.1 (by decide),
   (render_cta_presence "" { ctaUrl := some "" }).2.1.mpr (by decide)⟩

/-- C3, counterexample: the default configuration has a logoImage field
but the props interface has none, so logoImage cannot be overridden —
contradicting the claim that the overrides record has the same fields
as the default configuration including logoImage. -/
theorem props_fields_counterexample :
    "logoImage" ∈ defaultConfigFieldNames ∧ "logoImage" ∉ propsFieldNames := by
  decide

/-- C3 (amended): the overrides record has every default-configuration
field except logoImage (each independently optional, absence meaning
the default is used), plus an extra className field; logoImage is not overridable, and the
rendered logo always uses the default logoImage. -/
theorem props_fields_match (b : String) (p : PhysiotherapyHeroProps) :
    (∀ f ∈ defaultConfigFieldNames, f ≠ "logoImage" → f ∈ propsFieldNames) ∧
    "logoImage" ∉ propsFieldNames ∧
    "className" ∈ propsFieldNames ∧
    (render b p).logoSrc = (heroContent b).logoImage := by
  refine ⟨by decide, by decide, by decide, rfl⟩

/-- C3 witness: the title field is present in the props interface, and
at a concrete input the rendered logo is the default logo. -/
theorem props_fields_match_witness :
    "title" ∈ propsFieldNames ∧
      (render "" { title := some "X" }).logoSrc = (heroContent "").logoImage :=
  ⟨(props_fields_match "" { title := some "X" }).1 "title" (by decide) (by decide),
   (props_fields_match "" { title := some "X" }).2.2.2⟩

/-- C4: the resolved size is always one of the three variants large,
medium, small; the size-class lookup is total and selects exactly one
of the three pairwise-distinct fixed height classes. -/
theorem size_classes_total (b : String) (p : PhysiotherapyHeroProps) :
    ((resolve b p).displaySize = Size.large ∨
      (resolve b p).displaySize = Size.medium ∨
      (resolve b p).displaySize = Size.small) ∧
    (∀ s : Size, sizeClasses s = sizeClasses Size.large ∨
      sizeClasses s = sizeClasses Size.medium ∨
      sizeClasses s = sizeClasses Size.small) ∧
    sizeClasses Size.large ≠ sizeClasses Size.medium ∧
    sizeClasses Size.large ≠ sizeClasses Size.small ∧
    sizeClasses Size.medium ≠ sizeClasses Size.small ∧
    (render b p).heightClass = sizeClasses (resolve b p).displaySize := by
  refine ⟨?_, ?_, by decide, by decide, by decide, rfl⟩
  · rcases hs : p.size with _ | s
    · simp [resolve, hs, defaultSize]
    · cases s <;> simp [resolve, hs]
  · intro s
    cases s <;> simp

end Hero

namespace Hero

/-- C5: rendered with no overrides, the heading, the description
paragraph and the labels of both CTA links exactly equal the default
configuration's title, description, ctaText and secondaryCtaText (and
both links carry the default URLs). -/
theorem render_no_overrides_defaults (b : String) :
    (render b {}).heading = (heroContent b).title ∧
    (render b {}).paragraph = (heroContent b).description ∧
    (render b {}).primaryCta = some ((heroContent b).ctaText, (heroContent b).ctaUrl) ∧
    (render b {}).secondaryCta =
      some ((heroContent b).secondaryCtaText, (heroContent b).secondaryCtaUrl) := by
  refine ⟨rfl, rfl, ?_, ?_⟩ <;>
    by_cases hb : b = "" <;>
      simp [render, resolve, heroContent, strOr, hb]

/-- C6: overriding only the title leaves every other resolved field at
its default value — no cross-field leakage. -/
theorem resolve_title_only_frame (b t : String) :
    (resolve b { title := some t }).displayTitle = t ∧
    (resolve b { title := some t }).displayDescription = (heroContent b).description ∧
    (resolve b { title := some t }).displayImage = (heroContent b).heroImage ∧
    (resolve b { title := some t }).displayImageAlt = (heroContent b).heroImageAlt ∧
    (resolve b { title := some t }).displayCtaText = (heroContent b).ctaText ∧
    (resolve b { title := some t }).displayCtaUrl = (heroContent b).ctaUrl ∧
    (resolve b { title := some t }).displaySecondaryCtaText =
      (heroContent b).secondaryCtaText ∧
    (resolve b { title := some t }).displaySecondaryCtaUrl =
      (heroContent b).secondaryCtaUrl ∧
    (resolve b { title := some t }).displaySize = defaultSize := by
  exact ⟨rfl, rfl, rfl, rfl, rfl, rfl, rfl, rfl, rfl⟩

/-- C7: with overrides title = "Sports Injury Recovery" and size =
medium, the resolved title is the override, the height class is the
medium entry of the size-class table, every other resolved field is
the default (the description is the default physiotherapy
description), and both CTA links are present with the default labels
and URLs. -/
theorem render_example_overrides (b : String) :
    (render b { title := some "Sports Injury Recovery", size := some Size.medium }).heading =
      "Sports Injury Recovery" ∧
    (render b { title := some "Sports Injury Recovery", size := some Size.medium }).heightClass =
      sizeClasses Size.medium ∧
    (render b { title := some "Sports Injury Recovery", size := some Size.medium }).paragraph =
      (heroContent b).description ∧
    (heroContent b).description = "Expert physiotherapy care tailored to your recovery and performance goals. Our evidence-based treatments help you return to the activities you love." ∧
    (render b { title := some "Sports Injury Recovery", size := some Size.medium }).imageSrc =
      (heroContent b).heroImage ∧
    (render b { title := some "Sports Injury Recovery", size := some Size.medium }).imageAlt =
      (heroContent b).heroImageAlt ∧
    (render b { title := some "Sports Injury Recovery", size := some Size.medium }).primaryCta =
      some ((heroContent b).ctaText, (heroContent b).ctaUrl) ∧
    (render b { title := some "Sports Injury Recovery", size := some Size.medium }).secondaryCta =
      some ((heroContent b).secondaryCtaText, (heroContent b).secondaryCtaUrl) := by
  refine ⟨rfl, rfl, rfl, rfl, rfl, rfl, ?_, ?_⟩ <;>
    by_cases hb : b = "" <;>
      simp [render, resolve, heroContent, strOr, hb]

end Hero

namespace Hero

/-- C8: rendering is a deterministic function of the overrides record
for a fixed default configuration — equal override records produce
equal rendered outputs; the embedding is a pure function, matching the
absence of any state read or write in the component body. -/
theorem render_deterministic (b : String) (p q : PhysiotherapyHeroProps)
    (h : p = q) : render b p = render b q := by
  rw [h]

/-- C8 witness: two renders of the empty overrides record coincide. -/
theorem render_deterministic_witness :
    render "" {} = render "" {} :=
  render_deterministic "" {} {} rfl

/-- C9: when no size override is provided the resolved size is large,
and the rendered section uses the large entry of the size-class
table. -/
theorem resolve_default_size (b : String) (p : PhysiotherapyHeroProps)
    (h : p.size = none) :
    (resolve b p).displaySize = Size.large ∧
      (render b p).heightClass = sizeClasses Size.large := by
  have hs : (resolve b p).displaySize = Size.large := by
    simp [resolve, h, defaultSize]
  exact ⟨hs, by simp [render, hs]⟩

/-- C9 witness: the empty overrides record resolves to the large size
and its large height class. -/
theorem resolve_default_size_witness :
    (resolve "" {}).displaySize = Size.large ∧
      (render "" {}).heightClass = sizeClasses Size.large :=
  resolve_default_size "" {} rfl

/-- C10: the default primary CTA URL is the business-info bookingUrl
when that string is non-empty and the literal "/contact" otherwise; it
is never empty, so without a ctaUrl override the resolved primary CTA
URL is non-empty, and the primary CTA is present whenever its resolved
text is also non-empty. -/
theorem default_ctaUrl_fallback (b : String) (p : PhysiotherapyHeroProps)
    (h : p.ctaUrl = none) :
    (heroContent b).ctaUrl = (if b = "" then "/contact" else b) ∧
    (heroContent b).ctaUrl ≠ "" ∧
    (resolve b p).displayCtaUrl ≠ "" ∧
    ((resolve b p).displayCtaText ≠ "" → (render b p).primaryCta =
      some ((resolve b p).displayCtaText, (resolve b p).displayCtaUrl)) := by
  have hne : (heroContent b).ctaUrl ≠ "" := heroContent_ctaUrl_ne_empty b
  have hurl : (resolve b p).displayCtaUrl = (heroContent b).ctaUrl := by
    simp [resolve, h]
  refine ⟨rfl, hne, by rw [hurl]; exact hne, ?_⟩
  intro ht
  simp [render, ht, hurl, hne]

/-- C10 witness: with an empty bookingUrl and no overrides, the default
CTA URL is "/contact", non-empty, and the primary CTA is rendered. -/
theorem default_ctaUrl_fallback_witness :
    (heroContent "").ctaUrl = (if "" = "" then "/contact" else "") ∧
      (heroContent "").ctaUrl ≠ "" ∧
      (resolve "" ({} : PhysiotherapyHeroProps)).displayCtaUrl ≠ "" ∧
      ((resolve "" ({} : PhysiotherapyHeroProps)).displayCtaText ≠ "" →
        (render "" {}).primaryCta =
          some ((resolve "" ({} : PhysiotherapyHeroProps)).displayCtaText,
            (resolve "" ({} : PhysiotherapyHeroProps)).displayCtaUrl)) :=
  default_ctaUrl_fallback "" {} rfl

end Hero
